import Mathlib

/-!
Verification of the terminal session orchestrator (`src/canvas/src/terminal.ts`)
and the CLI session-query client (`src/unnamed/part_000`) of the
claude-code-canvas repository, as a shallow embedding in Lean.

External effects (child processes, files, sockets, timers) are modelled by
explicit oracles / event schedules passed as parameters; the control flow of
each embedded function follows the TypeScript source line by line.
-/

namespace Canvas

/-! ## Environment detection (`detectTerminal`, terminal.ts lines 25-81)

`process.env.X` is `Option String`; JavaScript `!!process.env.X` is true
exactly when the variable is set to a nonempty string (`""` is falsy), and
`process.env.X === "lit"` is false when the variable is unset. -/

/-- The slice of `process.env` that `detectTerminal` reads. -/
structure ProcEnv where
  tmuxVar : Option String
  termProgram : Option String
  itermSessionId : Option String
  kittyPid : Option String
  alacrittySocket : Option String
  vscodeInjection : Option String
  ghosttyResourcesDir : Option String
  deriving Repr, DecidableEq

/-- JavaScript truthiness of an optional environment string (`!!x`). -/
def truthy : Option String → Bool
  | none => false
  | some s => s ≠ ""

/-- JavaScript `process.env.X === "lit"` (unset compares false). -/
def envEq (v : Option String) (lit : String) : Bool :=
  match v with
  | none => false
  | some s => s = lit

/-- The nine exclusive classifications of `TerminalEnvironment.terminalType`. -/
inductive TerminalType where
  | tmux | iterm2 | appleTerminal | kitty | wezterm
  | alacritty | vscode | ghostty | none
  deriving Repr, DecidableEq

/-- The record returned by `detectTerminal` (terminal.ts lines 3-23). -/
structure TerminalEnvironment where
  inTmux : Bool
  inITerm2 : Bool
  inAppleTerminal : Bool
  inKitty : Bool
  inWezTerm : Bool
  inAlacritty : Bool
  inVSCode : Bool
  inGhostty : Bool
  terminalType : TerminalType
  summary : String
  deriving Repr, DecidableEq

/-- `detectTerminal` (terminal.ts lines 25-81): computes the eight presence
flags from the environment, then classifies by a first-match `if/else` chain. -/
def detectTerminal (env : ProcEnv) : TerminalEnvironment :=
  let inTmux := truthy env.tmuxVar
  let inITerm2 := envEq env.termProgram "iTerm.app" || truthy env.itermSessionId
  let inAppleTerminal := envEq env.termProgram "Apple_Terminal"
  let inKitty := envEq env.termProgram "kitty" || truthy env.kittyPid
  let inWezTerm := envEq env.termProgram "WezTerm"
  let inAlacritty := envEq env.termProgram "Alacritty" || truthy env.alacrittySocket
  let inVSCode := envEq env.termProgram "vscode" || truthy env.vscodeInjection
  let inGhostty := envEq env.termProgram "ghostty" || truthy env.ghosttyResourcesDir
  let ts : TerminalType × String :=
    if inTmux then (.tmux, "tmux")
    else if inITerm2 then (.iterm2, "iTerm2")
    else if inKitty then (.kitty, "Kitty")
    else if inWezTerm then (.wezterm, "WezTerm")
    else if inAlacritty then (.alacritty, "Alacritty (new window mode)")
    else if inVSCode then (.vscode, "VS Code (new terminal)")
    else if inGhostty then (.ghostty, "Ghostty (new window mode)")
    else if inAppleTerminal then (.appleTerminal, "Apple Terminal (new window mode)")
    else (.none, "unsupported terminal")
  { inTmux, inITerm2, inAppleTerminal, inKitty, inWezTerm,
    inAlacritty, inVSCode, inGhostty, terminalType := ts.1, summary := ts.2 }

/-- Modelled from the spec: the classification precedence
tmux > iTerm-family > Kitty > WezTerm > Alacritty > detached-process-host
(VS Code) > Ghostty > Apple Terminal > none, as a function of the presence
flags alone. -/
def specPrecedence (tmux iterm kitty wezterm alacritty vscode ghostty apple : Bool) :
    TerminalType :=
  if tmux then .tmux
  else if iterm then .iterm2
  else if kitty then .kitty
  else if wezterm then .wezterm
  else if alacritty then .alacritty
  else if vscode then .vscode
  else if ghostty then .ghostty
  else if apple then .appleTerminal
  else .none

/-! ## Spawn orchestration (`spawnCanvas`, terminal.ts lines 93-165)

Each backend adapter (`spawnITerm2`, `spawnTmux`, ...) performs external
effects; at the orchestration level only its overall boolean result matters,
so the eight adapter outcomes are an oracle.  `spawnCanvas` is embedded in
continuation style: each `if (env.inX) { ... if (result) return ... }` block
of the source is one stage, and falling out of the block is a call to the
next stage.  The list accumulates which adapters were attempted, in order. -/

/-- The eight backend adapters. -/
inductive Backend where
  | iterm2 | tmux | kitty | wezterm | alacritty | vscode | ghostty | appleTerminal
  deriving Repr, DecidableEq

/-- The record returned by a successful `spawnCanvas` (terminal.ts lines 83-86). -/
structure SpawnResult where
  method : String
  pid : Option Nat := Option.none
  deriving Repr, DecidableEq

/-- Oracle: the boolean outcome of each backend adapter's full attempt
(probe + reuse + create), i.e. the value of `await spawnX(command)`. -/
structure AdapterResults where
  iterm2Ok : Bool
  tmuxOk : Bool
  kittyOk : Bool
  weztermOk : Bool
  alacrittyOk : Bool
  vscodeOk : Bool
  ghosttyOk : Bool
  appleOk : Bool
  deriving Repr, DecidableEq

/-- The error thrown at terminal.ts lines 162-164. -/
def unsupportedTerminalMessage : String :=
  "Canvas requires a supported terminal: iTerm2, tmux, Kitty, WezTerm, Alacritty, VS Code, Ghostty, or Apple Terminal."

/-- terminal.ts lines 157-164: the `env.inAppleTerminal` block and the final `throw`. -/
def tryApple (env : TerminalEnvironment) (res : AdapterResults) (attempts : List Backend) :
    List Backend × Except String SpawnResult :=
  if env.inAppleTerminal then
    if res.appleOk then (attempts ++ [.appleTerminal], .ok ⟨"apple-terminal", Option.none⟩)
    else (attempts ++ [.appleTerminal], .error unsupportedTerminalMessage)
  else (attempts, .error unsupportedTerminalMessage)

/-- terminal.ts lines 152-155: the `env.inGhostty` block. -/
def tryGhostty (env : TerminalEnvironment) (res : AdapterResults) (attempts : List Backend) :
    List Backend × Except String SpawnResult :=
  if env.inGhostty then
    if res.ghosttyOk then (attempts ++ [.ghostty], .ok ⟨"ghostty", Option.none⟩)
    else tryApple env res (attempts ++ [.ghostty])
  else tryApple env res attempts

/-- terminal.ts lines 147-150: the `env.inVSCode` block. -/
def tryVSCode (env : TerminalEnvironment) (res : AdapterResults) (attempts : List Backend) :
    List Backend × Except String SpawnResult :=
  if env.inVSCode then
    if res.vscodeOk then (attempts ++ [.vscode], .ok ⟨"vscode", Option.none⟩)
    else tryGhostty env res (attempts ++ [.vscode])
  else tryGhostty env res attempts

/-- terminal.ts lines 142-145: the `env.inAlacritty` block. -/
def tryAlacritty (env : TerminalEnvironment) (res : AdapterResults) (attempts : List Backend) :
    List Backend × Except String SpawnResult :=
  if env.inAlacritty then
    if res.alacrittyOk then (attempts ++ [.alacritty], .ok ⟨"alacritty", Option.none⟩)
    else tryVSCode env res (attempts ++ [.alacritty])
  else tryVSCode env res attempts

/-- terminal.ts lines 137-140: the `env.inWezTerm` block. -/
def tryWezTerm (env : TerminalEnvironment) (res : AdapterResults) (attempts : List Backend) :
    List Backend × Except String SpawnResult :=
  if env.inWezTerm then
    if res.weztermOk then (attempts ++ [.wezterm], .ok ⟨"wezterm", Option.none⟩)
    else tryAlacritty env res (attempts ++ [.wezterm])
  else tryAlacritty env res attempts

/-- terminal.ts lines 132-135: the `env.inKitty` block. -/
def tryKitty (env : TerminalEnvironment) (res : AdapterResults) (attempts : List Backend) :
    List Backend × Except String SpawnResult :=
  if env.inKitty then
    if res.kittyOk then (attempts ++ [.kitty], .ok ⟨"kitty", Option.none⟩)
    else tryWezTerm env res (attempts ++ [.kitty])
  else tryWezTerm env res attempts

/-- terminal.ts lines 127-130: the `env.inTmux` block. -/
def tryTmuxB (env : TerminalEnvironment) (res : AdapterResults) (attempts : List Backend) :
    List Backend × Except String SpawnResult :=
  if env.inTmux then
    if res.tmuxOk then (attempts ++ [.tmux], .ok ⟨"tmux", Option.none⟩)
    else tryKitty env res (attempts ++ [.tmux])
  else tryKitty env res attempts

/-- `spawnCanvas` from terminal.ts lines 121-165 (the terminal-selection part):
starting with the `env.inITerm2` block at line 122, try each backend whose
presence flag is set, stopping at the first whose adapter reports success.
Returns the ordered list of adapters attempted and the overall result. -/
def spawnCanvasAttempts (env : TerminalEnvironment) (res : AdapterResults) :
    List Backend × Except String SpawnResult :=
  if env.inITerm2 then
    if res.iterm2Ok then ([.iterm2], .ok ⟨"iterm2", Option.none⟩)
    else tryTmuxB env res [.iterm2]
  else tryTmuxB env res []

/-- The fixed order in which `spawnCanvas` consults the presence flags. -/
def attemptOrder : List Backend :=
  [.iterm2, .tmux, .kitty, .wezterm, .alacritty, .vscode, .ghostty, .appleTerminal]

/-- The presence flag of a backend in a `TerminalEnvironment`. -/
def present (env : TerminalEnvironment) : Backend → Bool
  | .iterm2 => env.inITerm2
  | .tmux => env.inTmux
  | .kitty => env.inKitty
  | .wezterm => env.inWezTerm
  | .alacritty => env.inAlacritty
  | .vscode => env.inVSCode
  | .ghostty => env.inGhostty
  | .appleTerminal => env.inAppleTerminal

/-- The adapter-outcome oracle, per backend. -/
def adapterOk (res : AdapterResults) : Backend → Bool
  | .iterm2 => res.iterm2Ok
  | .tmux => res.tmuxOk
  | .kitty => res.kittyOk
  | .wezterm => res.weztermOk
  | .alacritty => res.alacrittyOk
  | .vscode => res.vscodeOk
  | .ghostty => res.ghosttyOk
  | .appleTerminal => res.appleOk

/-- The `method` string reported for each backend. -/
def methodName : Backend → String
  | .iterm2 => "iterm2"
  | .tmux => "tmux"
  | .kitty => "kitty"
  | .wezterm => "wezterm"
  | .alacritty => "alacritty"
  | .vscode => "vscode"
  | .ghostty => "ghostty"
  | .appleTerminal => "apple-terminal"

/-- Scan a backend order: attempt every backend whose presence flag is set, in
order, stopping at the first successful attempt; if none succeeds, fail with
the unsupported-terminal error. -/
def fallbackScan (env : TerminalEnvironment) (res : AdapterResults) :
    List Backend → List Backend → List Backend × Except String SpawnResult
  | [], acc => (acc, .error unsupportedTerminalMessage)
  | b :: bs, acc =>
    if present env b then
      if adapterOk res b then (acc ++ [b], .ok ⟨methodName b, Option.none⟩)
      else fallbackScan env res bs (acc ++ [b])
    else fallbackScan env res bs acc

/-- The amended orchestration behaviour: `fallbackScan` over the fixed order. -/
def fallbackRun (env : TerminalEnvironment) (res : AdapterResults) :
    List Backend × Except String SpawnResult :=
  fallbackScan env res attemptOrder []

/-! ## Command building (`spawnCanvas`, terminal.ts lines 101-119) -/

/-- The command string plus the side effects of building it: the optional
config-file write (path, contents written verbatim) and the socket path used. -/
structure BuiltCommand where
  command : String
  configWrite : Option (String × String)
  socketPath : String
  deriving Repr, DecidableEq

/-- Command assembly from terminal.ts lines 101-119.  `scriptDir` abstracts
`import.meta.dir.replace("/src", "")`.  JavaScript truthiness: an absent or
empty `options.socketPath` falls back to the default, an absent or empty
`configJson` / `options.scenario` adds nothing. -/
def buildCanvasCommand (scriptDir kind id : String) (configJson : Option String)
    (socketPathOpt scenario : Option String) : BuiltCommand :=
  let runScript := scriptDir ++ "/run-canvas.sh"
  let socketPath :=
    if truthy socketPathOpt then socketPathOpt.getD "" else "/tmp/canvas-" ++ id ++ ".sock"
  let command0 := runScript ++ " show " ++ kind ++ " --id " ++ id
  let withConfig : String × Option (String × String) :=
    if truthy configJson then
      let configFile := "/tmp/canvas-config-" ++ id ++ ".json"
      (command0 ++ " --config \"$(cat " ++ configFile ++ ")\"",
       Option.some (configFile, configJson.getD ""))
    else (command0, Option.none)
  let command1 := withConfig.1 ++ " --socket " ++ socketPath
  let command2 :=
    if truthy scenario then command1 ++ " --scenario " ++ scenario.getD "" else command1
  { command := command2, configWrite := withConfig.2, socketPath }

/-! ## Backend adapters: registry, probe, reuse, create

The registry file of a backend is `Option String` (`none` = file missing,
`some c` = file exists with content `c`).  External tools are oracles.
The reuse transport of a backend is reported as the list of actions it
performs on the live session, in order. -/

/-- JavaScript `String.prototype.trim()`: strip whitespace from both ends
(computable by kernel reduction, unlike `String.trim`). -/
def jsTrim (s : String) : String :=
  String.mk (((s.data.dropWhile Char.isWhitespace).reverse.dropWhile
    Char.isWhitespace).reverse)

/-- JavaScript `parseInt(s, 10)` on a string: trim, optional sign, longest
digit prefix; `none` is `NaN`. -/
def jsParseInt (s : String) : Option Int :=
  let cs := (jsTrim s).data
  let signRest : Int × List Char :=
    match cs with
    | '-' :: r => (-1, r)
    | '+' :: r => (1, r)
    | r => (1, r)
  let digits := signRest.2.takeWhile Char.isDigit
  if digits.isEmpty then Option.none
  else Option.some (signRest.1 *
    (digits.foldl (fun n c => n * 10 + (c.toNat - '0'.toNat)) (0 : Nat) : Nat))

/-- `s.replace(/"/g, '\\"')`: escape every double quote. -/
def escapeQuotes (s : String) : String :=
  String.mk (s.data.foldr (fun c acc => if c = '"' then '\\' :: '"' :: acc else c :: acc) [])

/-- One action that a reuse transport performs on a live session. -/
inductive ReuseAction where
  | interrupt
  | settle (ms : Nat)
  | inject (text : String)
  deriving Repr, DecidableEq

/-- What one adapter call did: the reuse transport's actions (if a reuse was
attempted), the registry content at the moment creation would begin, how many
times the creation primitive ran, the overall result, and the final registry
content. -/
structure AdapterOutcome where
  reuseActions : Option (List ReuseAction)
  fileAfterProbe : Option String
  createCount : Nat
  ok : Bool
  finalFile : Option String
  deriving Repr, DecidableEq

/-! ### tmux (terminal.ts lines 171-264) -/

/-- Oracle world for the tmux adapter. -/
structure TmuxWorld where
  /-- The command to run (argument of `spawnTmux`). -/
  command : String
  /-- Content of `/tmp/claude-canvas-pane-id`; `none` = file missing. -/
  paneFile : Option String
  /-- `tmux display-message -t <id> -p "#\x7bpane_id\x7d"`: trimmed stdout when
  the exit status is 0, `none` on nonzero status or launch failure. -/
  displayMessage : String → Option String
  /-- The first `send-keys` (the `C-c`) emitted `close` (`true`) rather than `error`. -/
  interruptOk : Bool
  /-- The second `send-keys` (the command injection) exited with code 0. -/
  injectExit : Bool
  /-- `tmux split-window` exited with code 0. -/
  splitExit : Bool
  /-- stdout of `tmux split-window ... -P -F "#\x7bpane_id\x7d"`. -/
  splitOutput : String

/-- `getCanvasPaneId` (terminal.ts lines 173-195): returns the live pane id
and the registry content afterwards.  A probe mismatch or failure writes `""`. -/
def getCanvasPaneId (w : TmuxWorld) : Option String × Option String :=
  match w.paneFile with
  | Option.none => (Option.none, Option.none)
  | Option.some content =>
    let paneId := jsTrim content
    match w.displayMessage paneId with
    | Option.some out =>
      if out = paneId then (Option.some paneId, Option.some content)
      else (Option.none, Option.some "")
    | Option.none => (Option.none, Option.some "")

/-- `createNewPane` (terminal.ts lines 201-226): split succeeds ⇒ result true
and, when stdout is nonempty, the new pane id is persisted. -/
def createNewPane (w : TmuxWorld) (fileBefore : Option String) : Bool × Option String :=
  if w.splitExit then
    (true, if jsTrim w.splitOutput ≠ "" then Option.some (jsTrim w.splitOutput) else fileBefore)
  else (false, fileBefore)

/-- `reuseExistingPane` (terminal.ts lines 228-250): send `C-c`, wait 150 ms,
send `clear && <command>` (plus the `Enter` key); result is the second
`send-keys` exiting 0.  A launch error on the `C-c` resolves false at once. -/
def reuseExistingPane (w : TmuxWorld) : List ReuseAction × Bool :=
  if w.interruptOk then
    ([.interrupt, .settle 150, .inject ("clear && " ++ w.command)], w.injectExit)
  else ([.interrupt], false)

/-- `spawnTmux` (terminal.ts lines 252-264): probe, reuse if live, clear and
create on reuse failure, create directly otherwise.  JavaScript truthiness:
an empty pane id from the probe is falsy and goes straight to creation. -/
def spawnTmux (w : TmuxWorld) : AdapterOutcome :=
  let probe := getCanvasPaneId w
  match probe.1 with
  | Option.some paneId =>
    if paneId ≠ "" then
      let reuse := reuseExistingPane w
      if reuse.2 then
        { reuseActions := Option.some reuse.1, fileAfterProbe := probe.2,
          createCount := 0, ok := true, finalFile := probe.2 }
      else
        let cr := createNewPane w (Option.some "")
        { reuseActions := Option.some reuse.1, fileAfterProbe := Option.some "",
          createCount := 1, ok := cr.1, finalFile := cr.2 }
    else
      let cr := createNewPane w probe.2
      { reuseActions := Option.none, fileAfterProbe := probe.2,
        createCount := 1, ok := cr.1, finalFile := cr.2 }
  | Option.none =>
    let cr := createNewPane w probe.2
    { reuseActions := Option.none, fileAfterProbe := probe.2,
      createCount := 1, ok := cr.1, finalFile := cr.2 }

/-! ### iTerm2 (terminal.ts lines 270-398) -/

/-- Oracle world for the iTerm2 adapter. -/
structure ITermWorld where
  command : String
  /-- Content of `/tmp/claude-canvas-iterm2-session`. -/
  sessionFile : Option String
  /-- The probe osascript exited 0. -/
  probeScriptOk : Bool
  /-- The probe script printed `exists` for this session id. -/
  sessionExists : String → Bool
  /-- The reuse osascript exited 0. -/
  reuseScriptOk : Bool
  /-- The reuse script found the session (printed `success`). -/
  reuseFound : Bool
  /-- The create osascript exited 0. -/
  createScriptOk : Bool
  /-- stdout of the create script (the new session's unique ID). -/
  createOutput : String

/-- `getITerm2SessionId` (terminal.ts lines 272-306).  An empty stored id is
falsy: no probe runs and the file is not cleared. -/
def getITerm2SessionId (w : ITermWorld) : Option String × Option String :=
  match w.sessionFile with
  | Option.none => (Option.none, Option.none)
  | Option.some content =>
    let sessionId := jsTrim content
    if sessionId = "" then (Option.none, Option.some content)
    else if w.probeScriptOk && w.sessionExists sessionId then
      (Option.some sessionId, Option.some content)
    else (Option.none, Option.some "")

/-- `reuseITerm2Session` (terminal.ts lines 346-384): the AppleScript, on the
matched session, writes ASCII 3 (interrupt), delays 0.15 s, then writes
`clear && <command>` with double quotes escaped; result is script exit 0 and
output `success`. -/
def reuseITerm2Session (w : ITermWorld) : List ReuseAction × Bool :=
  if w.reuseFound then
    ([.interrupt, .settle 150, .inject ("clear && " ++ escapeQuotes w.command)],
     w.reuseScriptOk && w.reuseFound)
  else ([], w.reuseScriptOk && w.reuseFound)

/-- `createITerm2SplitPane` (terminal.ts lines 312-344): exit 0 with a
nonempty session id persists it and resolves true; anything else false. -/
def createITerm2SplitPane (w : ITermWorld) (fileBefore : Option String) :
    Bool × Option String :=
  if w.createScriptOk && jsTrim w.createOutput ≠ "" then
    (true, Option.some (jsTrim w.createOutput))
  else (false, fileBefore)

/-- `spawnITerm2` (terminal.ts lines 386-398). -/
def spawnITerm2 (w : ITermWorld) : AdapterOutcome :=
  let probe := getITerm2SessionId w
  match probe.1 with
  | Option.some sessionId =>
    if sessionId ≠ "" then
      let reuse := reuseITerm2Session w
      if reuse.2 then
        { reuseActions := Option.some reuse.1, fileAfterProbe := probe.2,
          createCount := 0, ok := true, finalFile := probe.2 }
      else
        let cr := createITerm2SplitPane w (Option.some "")
        { reuseActions := Option.some reuse.1, fileAfterProbe := Option.some "",
          createCount := 1, ok := cr.1, finalFile := cr.2 }
    else
      let cr := createITerm2SplitPane w probe.2
      { reuseActions := Option.none, fileAfterProbe := probe.2,
        createCount := 1, ok := cr.1, finalFile := cr.2 }
  | Option.none =>
    let cr := createITerm2SplitPane w probe.2
    { reuseActions := Option.none, fileAfterProbe := probe.2,
      createCount := 1, ok := cr.1, finalFile := cr.2 }

/-! ### WezTerm (terminal.ts lines 532-651) -/

/-- Oracle world for the WezTerm adapter. -/
structure WezTermWorld where
  command : String
  /-- Content of `/tmp/claude-canvas-wezterm-pane`. -/
  paneFile : Option String
  /-- `wezterm cli list --format=json` exited 0 (and parsed). -/
  listOk : Bool
  /-- The `pane_id`s (as strings) in the parsed listing. -/
  listedPanes : List String
  /-- The `C-c` `send-text` emitted `close` rather than `error`. -/
  interruptOk : Bool
  /-- The command-injection `send-text` exited 0. -/
  injectExit : Bool
  /-- `wezterm cli split-pane` exited 0. -/
  splitExit : Bool
  /-- stdout of `split-pane` (the new pane id). -/
  splitOutput : String

/-- `getWezTermPaneId` (terminal.ts lines 534-561): an empty stored id is
falsy (no probe, no clear); a listing failure, parse failure, or missing id
clears the file. -/
def getWezTermPaneId (w : WezTermWorld) : Option String × Option String :=
  match w.paneFile with
  | Option.none => (Option.none, Option.none)
  | Option.some content =>
    let paneId := jsTrim content
    if paneId = "" then (Option.none, Option.some content)
    else if w.listOk && w.listedPanes.contains paneId then
      (Option.some paneId, Option.some content)
    else (Option.none, Option.some "")

/-- `createWezTermSplitPane` (terminal.ts lines 567-602): exit 0 resolves true
and persists the trimmed stdout when nonempty. -/
def createWezTermSplitPane (w : WezTermWorld) (fileBefore : Option String) :
    Bool × Option String :=
  if w.splitExit then
    (true, if jsTrim w.splitOutput ≠ "" then Option.some (jsTrim w.splitOutput) else fileBefore)
  else (false, fileBefore)

/-- `reuseWezTermPane` (terminal.ts lines 604-637): send `"\x03"`, wait 150 ms,
send `clear && <command>\n`; result is the second `send-text` exiting 0. -/
def reuseWezTermPane (w : WezTermWorld) : List ReuseAction × Bool :=
  if w.interruptOk then
    ([.interrupt, .settle 150, .inject ("clear && " ++ w.command ++ "\n")], w.injectExit)
  else ([.interrupt], false)

/-- `spawnWezTerm` (terminal.ts lines 639-651). -/
def spawnWezTerm (w : WezTermWorld) : AdapterOutcome :=
  let probe := getWezTermPaneId w
  match probe.1 with
  | Option.some paneId =>
    if paneId ≠ "" then
      let reuse := reuseWezTermPane w
      if reuse.2 then
        { reuseActions := Option.some reuse.1, fileAfterProbe := probe.2,
          createCount := 0, ok := true, finalFile := probe.2 }
      else
        let cr := createWezTermSplitPane w (Option.some "")
        { reuseActions := Option.some reuse.1, fileAfterProbe := Option.some "",
          createCount := 1, ok := cr.1, finalFile := cr.2 }
    else
      let cr := createWezTermSplitPane w probe.2
      { reuseActions := Option.none, fileAfterProbe := probe.2,
        createCount := 1, ok := cr.1, finalFile := cr.2 }
  | Option.none =>
    let cr := createWezTermSplitPane w probe.2
    { reuseActions := Option.none, fileAfterProbe := probe.2,
      createCount := 1, ok := cr.1, finalFile := cr.2 }

/-! ### Kitty (terminal.ts lines 657-793) -/

/-- Oracle world for the Kitty adapter.  Both `isKittyRemoteControlAvailable`
and the probe run `kitty @ ls`; the environment is assumed stable within one
call, so one status oracle serves all `kitty @ ls` invocations. -/
structure KittyWorld where
  command : String
  /-- Content of `/tmp/claude-canvas-kitty-window`. -/
  windowFile : Option String
  /-- `kitty @ ls` exits 0 (remote control reachable, listing parses). -/
  remoteOk : Bool
  /-- The window ids (as strings) reachable in the listing's os-window → tab →
  window nesting. -/
  listedWindows : List String
  /-- The `C-c` `send-text` emitted `close` rather than `error`. -/
  interruptOk : Bool
  /-- The command-injection `send-text` exited 0. -/
  injectExit : Bool
  /-- `kitty @ launch --location=vsplit` exited 0. -/
  launchExit : Bool
  /-- stdout of the remote launch (the new window id). -/
  launchOutput : String

/-- `getKittyWindowId` (terminal.ts lines 659-689). -/
def getKittyWindowId (w : KittyWorld) : Option String × Option String :=
  match w.windowFile with
  | Option.none => (Option.none, Option.none)
  | Option.some content =>
    let windowId := jsTrim content
    if windowId = "" then (Option.none, Option.some content)
    else if w.remoteOk && w.listedWindows.contains windowId then
      (Option.some windowId, Option.some content)
    else (Option.none, Option.some "")

/-- `createKittySplitPane` (terminal.ts lines 700-744): with remote control, a
remote launch that exits 0 persists the new id (when nonempty) and resolves
true; without remote control, a plain detached window always resolves true
with no identity captured. -/
def createKittySplitPane (w : KittyWorld) (fileBefore : Option String) :
    Bool × Option String :=
  if w.remoteOk then
    if w.launchExit then
      (true, if jsTrim w.launchOutput ≠ "" then Option.some (jsTrim w.launchOutput) else fileBefore)
    else (false, fileBefore)
  else (true, fileBefore)

/-- `reuseKittyWindow` (terminal.ts lines 746-777): send `"\x03"`, wait 150 ms,
send `clear && <command>\n`; result is the second `send-text` exiting 0. -/
def reuseKittyWindow (w : KittyWorld) : List ReuseAction × Bool :=
  if w.interruptOk then
    ([.interrupt, .settle 150, .inject ("clear && " ++ w.command ++ "\n")], w.injectExit)
  else ([.interrupt], false)

/-- `spawnKitty` (terminal.ts lines 779-793): the probe/reuse branch only runs
when remote control is reachable. -/
def spawnKitty (w : KittyWorld) : AdapterOutcome :=
  if w.remoteOk then
    let probe := getKittyWindowId w
    match probe.1 with
    | Option.some windowId =>
      if windowId ≠ "" then
        let reuse := reuseKittyWindow w
        if reuse.2 then
          { reuseActions := Option.some reuse.1, fileAfterProbe := probe.2,
            createCount := 0, ok := true, finalFile := probe.2 }
        else
          let cr := createKittySplitPane w (Option.some "")
          { reuseActions := Option.some reuse.1, fileAfterProbe := Option.some "",
            createCount := 1, ok := cr.1, finalFile := cr.2 }
      else
        let cr := createKittySplitPane w probe.2
        { reuseActions := Option.none, fileAfterProbe := probe.2,
          createCount := 1, ok := cr.1, finalFile := cr.2 }
    | Option.none =>
      let cr := createKittySplitPane w probe.2
      { reuseActions := Option.none, fileAfterProbe := probe.2,
        createCount := 1, ok := cr.1, finalFile := cr.2 }
  else
    let cr := createKittySplitPane w w.windowFile
    { reuseActions := Option.none, fileAfterProbe := w.windowFile,
      createCount := 1, ok := cr.1, finalFile := cr.2 }

/-! ### Alacritty (terminal.ts lines 799-887): no reuse transport -/

/-- Oracle world for the Alacritty adapter. -/
structure AlacrittyWorld where
  command : String
  /-- Content of `/tmp/claude-canvas-alacritty-pid`. -/
  pidFile : Option String
  /-- `process.kill(pid, 0)` succeeds (the process exists). -/
  alive : Int → Bool
  /-- `proc.pid` of the spawned `alacritty` process, if launch assigned one. -/
  spawnPid : Option Int

/-- `getAlacrittyPid` (terminal.ts lines 801-820): a non-numeric stored value
(`parseInt` = `NaN`) is skipped entirely — the file is NOT cleared; a numeric
pid that fails the signal-0 check clears the file. -/
def getAlacrittyPid (w : AlacrittyWorld) : Option Int × Option String :=
  match w.pidFile with
  | Option.none => (Option.none, Option.none)
  | Option.some content =>
    match jsParseInt content with
    | Option.none => (Option.none, Option.some content)
    | Option.some pid =>
      if w.alive pid then (Option.some pid, Option.some content)
      else (Option.none, Option.some "")

/-- `createAlacrittyWindow` (terminal.ts lines 826-871): a launch that yields
a pid persists it and resolves true. -/
def createAlacrittyWindow (w : AlacrittyWorld) (fileBefore : Option String) :
    Bool × Option String :=
  match w.spawnPid with
  | Option.some pid => (true, Option.some (toString pid))
  | Option.none => (false, fileBefore)

/-- `spawnAlacritty` (terminal.ts lines 873-887): "reuse" degrades to
terminating the old process (pid 0 is falsy and skipped), clearing the file,
and always invoking the creation primitive. -/
def spawnAlacritty (w : AlacrittyWorld) : AdapterOutcome :=
  let probe := getAlacrittyPid w
  match probe.1 with
  | Option.some pid =>
    if pid ≠ 0 then
      let cr := createAlacrittyWindow w (Option.some "")
      { reuseActions := Option.none, fileAfterProbe := Option.some "",
        createCount := 1, ok := cr.1, finalFile := cr.2 }
    else
      let cr := createAlacrittyWindow w probe.2
      { reuseActions := Option.none, fileAfterProbe := probe.2,
        createCount := 1, ok := cr.1, finalFile := cr.2 }
  | Option.none =>
    let cr := createAlacrittyWindow w probe.2
    { reuseActions := Option.none, fileAfterProbe := probe.2,
      createCount := 1, ok := cr.1, finalFile := cr.2 }

/-! ### Ghostty (terminal.ts lines 961-1074): no reuse transport -/

/-- Oracle world for the Ghostty adapter. -/
structure GhosttyWorld where
  command : String
  /-- Content of `/tmp/claude-canvas-ghostty-pid`. -/
  pidFile : Option String
  /-- `process.kill(pid, 0)` succeeds. -/
  alive : Int → Bool
  /-- `proc.pid` of the spawned launcher (`open` on macOS, `ghostty` elsewhere). -/
  spawnPid : Option Int
  /-- `process.platform === "darwin"`. -/
  darwin : Bool
  /-- stdout of `pgrep -n ghostty` (macOS pid resolution). -/
  pgrepOutput : String

/-- `getGhosttyPid` (terminal.ts lines 963-982): same shape as
`getAlacrittyPid`, including the non-numeric-value gap. -/
def getGhosttyPid (w : GhosttyWorld) : Option Int × Option String :=
  match w.pidFile with
  | Option.none => (Option.none, Option.none)
  | Option.some content =>
    match jsParseInt content with
    | Option.none => (Option.none, Option.some content)
    | Option.some pid =>
      if w.alive pid then (Option.some pid, Option.some content)
      else (Option.none, Option.some "")

/-- `createGhosttyWindow` (terminal.ts lines 988-1058): a launcher pid
resolves true; on macOS the persisted pid is re-resolved via `pgrep -n`
(nothing persisted when that parse fails), elsewhere the launcher pid itself
is persisted. -/
def createGhosttyWindow (w : GhosttyWorld) (fileBefore : Option String) :
    Bool × Option String :=
  match w.spawnPid with
  | Option.some pid =>
    if w.darwin then
      match jsParseInt w.pgrepOutput with
      | Option.some realPid => (true, Option.some (toString realPid))
      | Option.none => (true, fileBefore)
    else (true, Option.some (toString pid))
  | Option.none => (false, fileBefore)

/-- `spawnGhostty` (terminal.ts lines 1060-1074): terminate-then-recreate,
like Alacritty. -/
def spawnGhostty (w : GhosttyWorld) : AdapterOutcome :=
  let probe := getGhosttyPid w
  match probe.1 with
  | Option.some pid =>
    if pid ≠ 0 then
      let cr := createGhosttyWindow w (Option.some "")
      { reuseActions := Option.none, fileAfterProbe := Option.some "",
        createCount := 1, ok := cr.1, finalFile := cr.2 }
    else
      let cr := createGhosttyWindow w probe.2
      { reuseActions := Option.none, fileAfterProbe := probe.2,
        createCount := 1, ok := cr.1, finalFile := cr.2 }
  | Option.none =>
    let cr := createGhosttyWindow w probe.2
    { reuseActions := Option.none, fileAfterProbe := probe.2,
      createCount := 1, ok := cr.1, finalFile := cr.2 }

/-! ### Apple Terminal (terminal.ts lines 404-526) -/

/-- Oracle world for the Apple Terminal adapter. -/
structure AppleTerminalWorld where
  command : String
  /-- Content of `/tmp/claude-canvas-terminal-window`. -/
  windowFile : Option String
  /-- The probe osascript exited 0. -/
  probeScriptOk : Bool
  /-- The probe script printed `exists` for this window id. -/
  windowExists : Int → Bool
  /-- The reuse osascript exited 0. -/
  reuseScriptOk : Bool
  /-- The reuse script found the window (printed `success`). -/
  reuseFound : Bool
  /-- The create osascript exited 0. -/
  createScriptOk : Bool
  /-- stdout of the create script (the new window's id). -/
  createOutput : String

/-- `getAppleTerminalWindowId` (terminal.ts lines 406-436): `parseInt` the
stored value; a non-numeric value is skipped by the `isNaN` guard without
clearing (like the pid backends); a parsed id that the window enumeration
does not confirm clears the file. -/
def getAppleTerminalWindowId (w : AppleTerminalWorld) : Option Int × Option String :=
  match w.windowFile with
  | Option.none => (Option.none, Option.none)
  | Option.some content =>
    match jsParseInt content with
    | Option.none => (Option.none, Option.some content)
    | Option.some windowId =>
      if w.probeScriptOk && w.windowExists windowId then
        (Option.some windowId, Option.some content)
      else (Option.none, Option.some "")

/-- `reuseAppleTerminalWindow` (terminal.ts lines 481-512): the AppleScript,
on the matched window, brings it to front and runs `clear && <command>` with
double quotes escaped — no interrupt and no settle delay; result is script
exit 0 and output `success`. -/
def reuseAppleTerminalWindow (w : AppleTerminalWorld) : List ReuseAction × Bool :=
  if w.reuseFound then
    ([.inject ("clear && " ++ escapeQuotes w.command)],
     w.reuseScriptOk && w.reuseFound)
  else ([], w.reuseScriptOk && w.reuseFound)

/-- `createAppleTerminalWindow` (terminal.ts lines 442-479): exit 0 with a
numeric window id on stdout persists it and resolves true; anything else
false. -/
def createAppleTerminalWindow (w : AppleTerminalWorld) (fileBefore : Option String) :
    Bool × Option String :=
  if w.createScriptOk then
    match jsParseInt w.createOutput with
    | Option.some windowId => (true, Option.some (toString windowId))
    | Option.none => (false, fileBefore)
  else (false, fileBefore)

/-- `spawnAppleTerminal` (terminal.ts lines 514-526).  JavaScript truthiness:
a stored window id of 0 is falsy and goes straight to creation. -/
def spawnAppleTerminal (w : AppleTerminalWorld) : AdapterOutcome :=
  let probe := getAppleTerminalWindowId w
  match probe.1 with
  | Option.some windowId =>
    if windowId ≠ 0 then
      let reuse := reuseAppleTerminalWindow w
      if reuse.2 then
        { reuseActions := Option.some reuse.1, fileAfterProbe := probe.2,
          createCount := 0, ok := true, finalFile := probe.2 }
      else
        let cr := createAppleTerminalWindow w (Option.some "")
        { reuseActions := Option.some reuse.1, fileAfterProbe := Option.some "",
          createCount := 1, ok := cr.1, finalFile := cr.2 }
    else
      let cr := createAppleTerminalWindow w probe.2
      { reuseActions := Option.none, fileAfterProbe := probe.2,
        createCount := 1, ok := cr.1, finalFile := cr.2 }
  | Option.none =>
    let cr := createAppleTerminalWindow w probe.2
    { reuseActions := Option.none, fileAfterProbe := probe.2,
      createCount := 1, ok := cr.1, finalFile := cr.2 }

/-! ### VS Code (terminal.ts lines 893-955): no reuse transport -/

/-- Oracle world for the VS Code (detached-process) adapter. -/
structure VSCodeWorld where
  command : String
  /-- Content of `/tmp/claude-canvas-vscode-pid`. -/
  pidFile : Option String
  /-- `process.kill(pid, 0)` succeeds. -/
  alive : Int → Bool
  /-- `proc.pid` of the spawned detached `bash -c` process. -/
  spawnPid : Option Int

/-- `getVSCodePid` (terminal.ts lines 895-914): same shape as
`getAlacrittyPid`, including the non-numeric-value gap. -/
def getVSCodePid (w : VSCodeWorld) : Option Int × Option String :=
  match w.pidFile with
  | Option.none => (Option.none, Option.none)
  | Option.some content =>
    match jsParseInt content with
    | Option.none => (Option.none, Option.some content)
    | Option.some pid =>
      if w.alive pid then (Option.some pid, Option.some content)
      else (Option.none, Option.some "")

/-- `createVSCodeTerminal` (terminal.ts lines 920-939): a launch that yields
a pid persists it and resolves true. -/
def createVSCodeTerminal (w : VSCodeWorld) (fileBefore : Option String) :
    Bool × Option String :=
  match w.spawnPid with
  | Option.some pid => (true, Option.some (toString pid))
  | Option.none => (false, fileBefore)

/-- `spawnVSCode` (terminal.ts lines 941-955): terminate-then-recreate, like
Alacritty. -/
def spawnVSCode (w : VSCodeWorld) : AdapterOutcome :=
  let probe := getVSCodePid w
  match probe.1 with
  | Option.some pid =>
    if pid ≠ 0 then
      let cr := createVSCodeTerminal w (Option.some "")
      { reuseActions := Option.none, fileAfterProbe := Option.some "",
        createCount := 1, ok := cr.1, finalFile := cr.2 }
    else
      let cr := createVSCodeTerminal w probe.2
      { reuseActions := Option.none, fileAfterProbe := probe.2,
        createCount := 1, ok := cr.1, finalFile := cr.2 }
  | Option.none =>
    let cr := createVSCodeTerminal w probe.2
    { reuseActions := Option.none, fileAfterProbe := probe.2,
      createCount := 1, ok := cr.1, finalFile := cr.2 }

/-! ## Session query client (`sendCanvasRequest`, part_000 lines 134-186)

The wire carries newline-delimited JSON; a `data` socket event is modelled
after `JSON.parse(data.toString().trim())`, i.e. as the declared `type`
together with the structured `data` payload.  The handlers run one at a time
(single-threaded event loop), so a call is a fold of its handler over the
sequence of events the socket delivers; `clearTimeout` is subsumed by the
`resolved` guard that every handler checks. -/

/-- Structured JSON values (the payloads the canvas server replies with). -/
inductive Json where
  | null
  | bool (b : Bool)
  | num (n : Int)
  | str (s : String)
  | arr (elems : List Json)
  deriving Repr

/-- JSON string escaping (quotes and backslashes). -/
def escapeJson (s : String) : String :=
  String.mk (s.data.foldr
    (fun c acc =>
      if c = '"' then '\\' :: '"' :: acc
      else if c = '\\' then '\\' :: '\\' :: acc
      else c :: acc) [])

mutual

/-- `JSON.stringify` on a structured value. -/
def Json.stringify : Json → String
  | .null => "null"
  | .bool true => "true"
  | .bool false => "false"
  | .num n => toString n
  | .str s => "\"" ++ escapeJson s ++ "\""
  | .arr xs => "[" ++ Json.stringifyElems xs ++ "]"

/-- Comma-separated serialization of array elements. -/
def Json.stringifyElems : List Json → String
  | [] => ""
  | [x] => Json.stringify x
  | x :: y :: xs => Json.stringify x ++ "," ++ Json.stringifyElems (y :: xs)

end

/-- One event delivered to the socket handlers of `sendCanvasRequest`, in the
order the event loop runs them.  `timeoutFired` is the `setTimeout` callback
at `timeoutMs`. -/
inductive SockEvent where
  | opened
  | dataLine (ty : String) (payload : Json)
  | closed
  | errored (msg : String)
  | timeoutFired
  deriving Repr

/-- The closure state of one `sendCanvasRequest` call: the `resolved` flag and
how the promise settled (`none` = still pending). -/
structure ClientState where
  resolved : Bool
  outcome : Option (Except String String)
  deriving Repr

/-- part_000 line 146: the timeout rejection message. -/
def timeoutMessage : String := "Timeout waiting for response"

/-- part_000 line 138: the default `timeoutMs`. -/
def defaultTimeoutMs : Nat := 2000

/-- One handler dispatch of `sendCanvasRequest` (part_000 lines 142-184). -/
def clientStep (expectedResponseType : String) (st : ClientState) :
    SockEvent → ClientState
  | .opened => st
  | .dataLine ty payload =>
    if st.resolved then st
    else
      { resolved := true,
        outcome := Option.some (.ok
          (if ty = expectedResponseType then payload.stringify else Json.null.stringify)) }
  | .closed =>
    if st.resolved then st
    else { resolved := true, outcome := Option.some (.ok Json.null.stringify) }
  | .errored m =>
    if st.resolved then st
    else { resolved := true, outcome := Option.some (.error m) }
  | .timeoutFired =>
    if st.resolved then st
    else { resolved := true, outcome := Option.some (.error timeoutMessage) }

/-- The observable result of one `sendCanvasRequest` call: how many
`Bun.connect` attempts it made (exactly one — the single call at part_000
line 150, with no retry), and how the promise settled under a given event
schedule. -/
structure QueryRun where
  connectAttempts : Nat
  outcome : Option (Except String String)
  deriving Repr

/-- `sendCanvasRequest` (part_000 lines 134-186) under an event schedule. -/
def sendCanvasRequest (expectedResponseType : String) (events : List SockEvent) :
    QueryRun :=
  { connectAttempts := 1,
    outcome := (events.foldl (clientStep expectedResponseType)
      ⟨false, Option.none⟩).outcome }

/-- `needle` occurs as a contiguous substring of `hay` (Prop form, usable with
abstract strings). -/
def containsFragment (hay needle : String) : Prop :=
  ∃ a b : List Char, hay.data = a ++ needle.data ++ b

/-- Boolean substring occurrence, for concrete strings. -/
def strOccursB (needle hay : String) : Bool :=
  (List.range (hay.data.length + 1)).any fun i =>
    needle.data.isPrefixOf (hay.data.drop i)

/-! # Theorems -/

/-! ## Environment detection -/

/-- The classification `if/else` chain of `detectTerminal`, over arbitrary
booleans, picks the same value as the spec's precedence function. -/
lemma chain_fst_eq_specPrecedence (b1 b2 b3 b4 b5 b6 b7 b8 : Bool) :
    (if b1 then ((TerminalType.tmux : TerminalType), "tmux")
     else if b2 then (.iterm2, "iTerm2")
     else if b3 then (.kitty, "Kitty")
     else if b4 then (.wezterm, "WezTerm")
     else if b5 then (.alacritty, "Alacritty (new window mode)")
     else if b6 then (.vscode, "VS Code (new terminal)")
     else if b7 then (.ghostty, "Ghostty (new window mode)")
     else if b8 then (.appleTerminal, "Apple Terminal (new window mode)")
     else (.none, "unsupported terminal")).1 =
      specPrecedence b1 b2 b3 b4 b5 b6 b7 b8 := by
  revert b1 b2 b3 b4 b5 b6 b7 b8
  decide

/-- `detectTerminal`'s classification is the spec precedence applied to the
presence flags it returns. -/
lemma detectTerminal_type (e : ProcEnv) :
    (detectTerminal e).terminalType =
      specPrecedence (detectTerminal e).inTmux (detectTerminal e).inITerm2
        (detectTerminal e).inKitty (detectTerminal e).inWezTerm
        (detectTerminal e).inAlacritty (detectTerminal e).inVSCode
        (detectTerminal e).inGhostty (detectTerminal e).inAppleTerminal :=
  chain_fst_eq_specPrecedence (truthy e.tmuxVar)
    (envEq e.termProgram "iTerm.app" || truthy e.itermSessionId)
    (envEq e.termProgram "kitty" || truthy e.kittyPid)
    (envEq e.termProgram "WezTerm")
    (envEq e.termProgram "Alacritty" || truthy e.alacrittySocket)
    (envEq e.termProgram "vscode" || truthy e.vscodeInjection)
    (envEq e.termProgram "ghostty" || truthy e.ghosttyResourcesDir)
    (envEq e.termProgram "Apple_Terminal")

set_option synthInstance.maxSize 2000 in
set_option maxHeartbeats 1000000 in
/-- The precedence function returns `none` only when every flag is false. -/
lemma specPrecedence_eq_none (b1 b2 b3 b4 b5 b6 b7 b8 : Bool) :
    specPrecedence b1 b2 b3 b4 b5 b6 b7 b8 = .none →
      b1 = false ∧ b2 = false ∧ b3 = false ∧ b4 = false ∧
      b5 = false ∧ b6 = false ∧ b7 = false ∧ b8 = false := by
  revert b1 b2 b3 b4 b5 b6 b7 b8
  decide

/-- C2: `detectTerminal` is a pure function of the process environment
variables (it is a Lean function of `ProcEnv`, hence deterministic and
side-effect free), and for every environment its classification is exactly
one of the nine `TerminalType` values, namely the one selected from the
presence flags by the precedence
tmux > iTerm-family > Kitty > WezTerm > Alacritty > VS Code > Ghostty >
Apple Terminal > none. -/
theorem c2_detectTerminal_precedence (e : ProcEnv) :
    (detectTerminal e).terminalType =
      specPrecedence (detectTerminal e).inTmux (detectTerminal e).inITerm2
        (detectTerminal e).inKitty (detectTerminal e).inWezTerm
        (detectTerminal e).inAlacritty (detectTerminal e).inVSCode
        (detectTerminal e).inGhostty (detectTerminal e).inAppleTerminal :=
  detectTerminal_type e

/-! ## Spawn orchestration: C1 and C7 -/

lemma tryApple_scan (env : TerminalEnvironment) (res : AdapterResults)
    (acc : List Backend) :
    tryApple env res acc = fallbackScan env res [.appleTerminal] acc := by
  simp [tryApple, fallbackScan, present, adapterOk, methodName]

lemma tryGhostty_scan (env : TerminalEnvironment) (res : AdapterResults)
    (acc : List Backend) :
    tryGhostty env res acc = fallbackScan env res [.ghostty, .appleTerminal] acc := by
  simp [tryGhostty, fallbackScan, present, adapterOk, methodName, tryApple_scan]

lemma tryVSCode_scan (env : TerminalEnvironment) (res : AdapterResults)
    (acc : List Backend) :
    tryVSCode env res acc =
      fallbackScan env res [.vscode, .ghostty, .appleTerminal] acc := by
  simp [tryVSCode, fallbackScan, present, adapterOk, methodName, tryGhostty_scan]

lemma tryAlacritty_scan (env : TerminalEnvironment) (res : AdapterResults)
    (acc : List Backend) :
    tryAlacritty env res acc =
      fallbackScan env res [.alacritty, .vscode, .ghostty, .appleTerminal] acc := by
  simp [tryAlacritty, fallbackScan, present, adapterOk, methodName, tryVSCode_scan]

lemma tryWezTerm_scan (env : TerminalEnvironment) (res : AdapterResults)
    (acc : List Backend) :
    tryWezTerm env res acc =
      fallbackScan env res [.wezterm, .alacritty, .vscode, .ghostty, .appleTerminal] acc := by
  simp [tryWezTerm, fallbackScan, present, adapterOk, methodName, tryAlacritty_scan]

lemma tryKitty_scan (env : TerminalEnvironment) (res : AdapterResults)
    (acc : List Backend) :
    tryKitty env res acc =
      fallbackScan env res
        [.kitty, .wezterm, .alacritty, .vscode, .ghostty, .appleTerminal] acc := by
  simp [tryKitty, fallbackScan, present, adapterOk, methodName, tryWezTerm_scan]

lemma tryTmuxB_scan (env : TerminalEnvironment) (res : AdapterResults)
    (acc : List Backend) :
    tryTmuxB env res acc =
      fallbackScan env res
        [.tmux, .kitty, .wezterm, .alacritty, .vscode, .ghostty, .appleTerminal] acc := by
  simp [tryTmuxB, fallbackScan, present, adapterOk, methodName, tryKitty_scan]

/-- C1 fails on the code: with `TMUX` and `TERM_PROGRAM=iTerm.app` both set,
the exclusive classification is `tmux`, yet `spawnCanvas` attempts the iTerm2
adapter first and, when that single attempt fails, goes on to attempt the
tmux adapter and succeeds — two backends attempted in one call, and the first
failure does not propagate. -/
theorem c1_counterexample :
    (detectTerminal
        ⟨Option.some "/tmp/t,1,0", Option.some "iTerm.app", Option.none,
          Option.none, Option.none, Option.none, Option.none⟩).terminalType =
      .tmux ∧
    spawnCanvasAttempts
        (detectTerminal
          ⟨Option.some "/tmp/t,1,0", Option.some "iTerm.app", Option.none,
            Option.none, Option.none, Option.none, Option.none⟩)
        ⟨false, true, false, false, false, false, false, false⟩ =
      ([.iterm2, .tmux], .ok { method := "tmux", pid := Option.none }) ∧
    (spawnCanvasAttempts
        (detectTerminal
          ⟨Option.some "/tmp/t,1,0", Option.some "iTerm.app", Option.none,
            Option.none, Option.none, Option.none, Option.none⟩)
        ⟨false, true, false, false, false, false, false, false⟩).1.length ≠ 1 := by
  refine ⟨rfl, rfl, ?_⟩
  intro h
  simp [spawnCanvasAttempts, tryTmuxB, detectTerminal, truthy, envEq] at h

/-- C1 amended: `spawnCanvas` does not dispatch on the exclusive
classification; it consults the presence flags in the fixed order
iTerm2, tmux, Kitty, WezTerm, Alacritty, VS Code, Ghostty, Apple Terminal,
attempts every backend whose flag is set until one attempt succeeds, and only
when all attempted backends fail (or none is present) does the call fail,
with the unsupported-terminal error. -/
theorem c1_amended (env : TerminalEnvironment) (res : AdapterResults) :
    spawnCanvasAttempts env res = fallbackRun env res := by
  simp [spawnCanvasAttempts, fallbackRun, attemptOrder, fallbackScan,
    present, adapterOk, methodName, tryTmuxB_scan]

/-- C7: when the classification is `none` (no supported-terminal environment
variable is set), `spawnCanvas` attempts no backend and throws the
unsupported-terminal error, whose message names all eight supported terminal
products. -/
theorem c7_unsupported_error (e : ProcEnv) (res : AdapterResults)
    (h : (detectTerminal e).terminalType = .none) :
    spawnCanvasAttempts (detectTerminal e) res =
      ([], .error unsupportedTerminalMessage) ∧
    ([ "iTerm2", "tmux", "Kitty", "WezTerm", "Alacritty", "VS Code", "Ghostty",
       "Apple Terminal" ].all fun n => strOccursB n unsupportedTerminalMessage) = true := by
  rw [detectTerminal_type e] at h
  obtain ⟨h1, h2, h3, h4, h5, h6, h7, h8⟩ := specPrecedence_eq_none _ _ _ _ _ _ _ _ h
  refine ⟨?_, by decide⟩
  simp [spawnCanvasAttempts, tryTmuxB, tryKitty, tryWezTerm, tryAlacritty,
    tryVSCode, tryGhostty, tryApple, h1, h2, h3, h4, h5, h6, h7, h8]

/-- Witness for C7 at a concrete empty environment. -/
theorem c7_unsupported_error_witness :
    (detectTerminal
        ⟨Option.none, Option.none, Option.none, Option.none, Option.none,
          Option.none, Option.none⟩).terminalType = .none ∧
    (spawnCanvasAttempts
        (detectTerminal
          ⟨Option.none, Option.none, Option.none, Option.none, Option.none,
            Option.none, Option.none⟩)
        ⟨true, true, true, true, true, true, true, true⟩ =
      ([], .error unsupportedTerminalMessage) ∧
    ([ "iTerm2", "tmux", "Kitty", "WezTerm", "Alacritty", "VS Code", "Ghostty",
       "Apple Terminal" ].all fun n => strOccursB n unsupportedTerminalMessage) = true) :=
  ⟨rfl,
    c7_unsupported_error
      ⟨Option.none, Option.none, Option.none, Option.none, Option.none,
        Option.none, Option.none⟩
      ⟨true, true, true, true, true, true, true, true⟩ rfl⟩

/-! ## Command building: C5 -/

lemma containsFragment_of_split (pre mid post s : String)
    (h : s = pre ++ mid ++ post) : containsFragment s mid :=
  ⟨pre.data, post.data, by simp [h]⟩

lemma truthy_none : truthy Option.none = false := rfl

/-- C5: with no explicit socket path, the built command carries `--id <id>`
and a `--socket` flag whose value is the deterministic default
`/tmp/canvas-<id>.sock`; a (nonempty) config JSON is written verbatim to the
per-id file `/tmp/canvas-config-<id>.json` and the command gains the fragment
`--config "$(cat /tmp/canvas-config-<id>.json)"` that re-reads the file
instead of inlining the JSON; `--scenario <name>` is appended exactly when a
(nonempty) scenario is supplied, changing nothing else. -/
theorem c5_command_builder (scriptDir kind id : String)
    (configJson scenario : Option String) :
    (buildCanvasCommand scriptDir kind id configJson Option.none scenario).socketPath =
        "/tmp/canvas-" ++ id ++ ".sock" ∧
    containsFragment
        (buildCanvasCommand scriptDir kind id configJson Option.none scenario).command
        (" --id " ++ id) ∧
    containsFragment
        (buildCanvasCommand scriptDir kind id configJson Option.none scenario).command
        (" --socket " ++ ("/tmp/canvas-" ++ id ++ ".sock")) ∧
    (∀ c, configJson = Option.some c → c ≠ "" →
      (buildCanvasCommand scriptDir kind id configJson Option.none scenario).configWrite =
          Option.some ("/tmp/canvas-config-" ++ id ++ ".json", c) ∧
      containsFragment
          (buildCanvasCommand scriptDir kind id configJson Option.none scenario).command
          (" --config \"$(cat " ++ ("/tmp/canvas-config-" ++ id ++ ".json") ++ ")\"")) ∧
    (∀ s, scenario = Option.some s → s ≠ "" →
      (buildCanvasCommand scriptDir kind id configJson Option.none scenario).command =
        (buildCanvasCommand scriptDir kind id configJson Option.none Option.none).command
          ++ (" --scenario " ++ s)) := by
  refine ⟨rfl, ?_, ?_, ?_, ?_⟩
  · cases hc : truthy configJson <;> cases hs : truthy scenario
    · exact containsFragment_of_split
        (scriptDir ++ "/run-canvas.sh" ++ " show " ++ kind) (" --id " ++ id)
        (" --socket " ++ ("/tmp/canvas-" ++ id ++ ".sock")) _
        (by simp [-String.reduceAppend, buildCanvasCommand, truthy_none, hc, hs, String.append_assoc])
    · exact containsFragment_of_split
        (scriptDir ++ "/run-canvas.sh" ++ " show " ++ kind) (" --id " ++ id)
        (" --socket " ++ ("/tmp/canvas-" ++ id ++ ".sock")
          ++ (" --scenario " ++ scenario.getD "")) _
        (by simp [-String.reduceAppend, buildCanvasCommand, truthy_none, hc, hs, String.append_assoc])
    · exact containsFragment_of_split
        (scriptDir ++ "/run-canvas.sh" ++ " show " ++ kind) (" --id " ++ id)
        (" --config \"$(cat " ++ ("/tmp/canvas-config-" ++ id ++ ".json") ++ ")\""
          ++ (" --socket " ++ ("/tmp/canvas-" ++ id ++ ".sock"))) _
        (by simp [-String.reduceAppend, buildCanvasCommand, truthy_none, hc, hs, String.append_assoc])
    · exact containsFragment_of_split
        (scriptDir ++ "/run-canvas.sh" ++ " show " ++ kind) (" --id " ++ id)
        (" --config \"$(cat " ++ ("/tmp/canvas-config-" ++ id ++ ".json") ++ ")\""
          ++ (" --socket " ++ ("/tmp/canvas-" ++ id ++ ".sock"))
          ++ (" --scenario " ++ scenario.getD "")) _
        (by simp [-String.reduceAppend, buildCanvasCommand, truthy_none, hc, hs, String.append_assoc])
  · cases hc : truthy configJson <;> cases hs : truthy scenario
    · exact containsFragment_of_split
        (scriptDir ++ "/run-canvas.sh" ++ " show " ++ kind ++ " --id " ++ id)
        (" --socket " ++ ("/tmp/canvas-" ++ id ++ ".sock")) "" _
        (by simp [-String.reduceAppend, buildCanvasCommand, truthy_none, hc, hs, String.append_assoc])
    · exact containsFragment_of_split
        (scriptDir ++ "/run-canvas.sh" ++ " show " ++ kind ++ " --id " ++ id)
        (" --socket " ++ ("/tmp/canvas-" ++ id ++ ".sock"))
        (" --scenario " ++ scenario.getD "") _
        (by simp [-String.reduceAppend, buildCanvasCommand, truthy_none, hc, hs, String.append_assoc])
    · exact containsFragment_of_split
        (scriptDir ++ "/run-canvas.sh" ++ " show " ++ kind ++ " --id " ++ id
          ++ (" --config \"$(cat " ++ ("/tmp/canvas-config-" ++ id ++ ".json") ++ ")\""))
        (" --socket " ++ ("/tmp/canvas-" ++ id ++ ".sock")) "" _
        (by simp [-String.reduceAppend, buildCanvasCommand, truthy_none, hc, hs, String.append_assoc])
    · exact containsFragment_of_split
        (scriptDir ++ "/run-canvas.sh" ++ " show " ++ kind ++ " --id " ++ id
          ++ (" --config \"$(cat " ++ ("/tmp/canvas-config-" ++ id ++ ".json") ++ ")\""))
        (" --socket " ++ ("/tmp/canvas-" ++ id ++ ".sock"))
        (" --scenario " ++ scenario.getD "") _
        (by simp [-String.reduceAppend, buildCanvasCommand, truthy_none, hc, hs, String.append_assoc])
  · intro c hcfg hcne
    subst hcfg
    have hc : truthy (Option.some c) = true := by simp [truthy, hcne]
    refine ⟨by simp [buildCanvasCommand, hc], ?_⟩
    cases hs : truthy scenario
    · exact containsFragment_of_split
        (scriptDir ++ "/run-canvas.sh" ++ " show " ++ kind ++ " --id " ++ id)
        (" --config \"$(cat " ++ ("/tmp/canvas-config-" ++ id ++ ".json") ++ ")\"")
        (" --socket " ++ ("/tmp/canvas-" ++ id ++ ".sock")) _
        (by simp [-String.reduceAppend, buildCanvasCommand, truthy_none, hc, hs, String.append_assoc])
    · exact containsFragment_of_split
        (scriptDir ++ "/run-canvas.sh" ++ " show " ++ kind ++ " --id " ++ id)
        (" --config \"$(cat " ++ ("/tmp/canvas-config-" ++ id ++ ".json") ++ ")\"")
        (" --socket " ++ ("/tmp/canvas-" ++ id ++ ".sock")
          ++ (" --scenario " ++ scenario.getD "")) _
        (by simp [-String.reduceAppend, buildCanvasCommand, truthy_none, hc, hs, String.append_assoc])
  · intro s hscn hsne
    subst hscn
    have hs : truthy (Option.some s) = true := by simp [truthy, hsne]
    cases hc : truthy configJson <;>
      simp [-String.reduceAppend, buildCanvasCommand, truthy_none, hc, hs, String.append_assoc]

/-- Witness for C5 at kind "calendar", id "demo-1", config text containing a
quoted key, and a supplied scenario. -/
theorem c5_command_builder_witness :
    (buildCanvasCommand "/skill" "calendar" "demo-1"
        (Option.some "\x7b\"x\":1\x7d") Option.none (Option.some "display")).socketPath =
      "/tmp/canvas-" ++ "demo-1" ++ ".sock" ∧
    (buildCanvasCommand "/skill" "calendar" "demo-1"
        (Option.some "\x7b\"x\":1\x7d") Option.none (Option.some "display")).configWrite =
      Option.some ("/tmp/canvas-config-" ++ "demo-1" ++ ".json", "\x7b\"x\":1\x7d") ∧
    containsFragment
      (buildCanvasCommand "/skill" "calendar" "demo-1"
        (Option.some "\x7b\"x\":1\x7d") Option.none (Option.some "display")).command
      (" --config \"$(cat " ++ ("/tmp/canvas-config-" ++ "demo-1" ++ ".json") ++ ")\"") := by
  obtain ⟨h1, _, _, h4, _⟩ := c5_command_builder "/skill" "calendar" "demo-1"
    (Option.some "\x7b\"x\":1\x7d") (Option.some "display")
  obtain ⟨h4a, h4b⟩ := h4 "\x7b\"x\":1\x7d" rfl (by decide)
  exact ⟨h1, h4a, h4b⟩

/-! ## Backend lifecycle: C3 and C4 -/

/-- C3 fails on the code: for the Alacritty backend a persisted pid that the
signal-0 probe confirms live does NOT lead to a reuse path — the process is
terminated and the creation primitive is invoked anyway (terminal.ts
873-887). -/
theorem c3_counterexample :
    (getAlacrittyPid
        { command := "cmd", pidFile := Option.some "1234",
          alive := fun _ => true, spawnPid := Option.some 4321 }).1 =
      Option.some 1234 ∧
    (spawnAlacritty
        { command := "cmd", pidFile := Option.some "1234",
          alive := fun _ => true, spawnPid := Option.some 4321 }).createCount = 1 ∧
    (spawnAlacritty
        { command := "cmd", pidFile := Option.some "1234",
          alive := fun _ => true, spawnPid := Option.some 4321 }).reuseActions =
      Option.none := by
  refine ⟨by decide, by decide, by decide⟩

/-- C3 amended: for every backend with a reuse transport (tmux, iTerm2,
WezTerm, Kitty-with-remote-control, Apple Terminal), a live probe whose reuse
transport succeeds yields the reuse path and the creation primitive is not
invoked; for the process-id backends Alacritty, VS Code and Ghostty there is
no reuse path — every call invokes the creation primitive exactly once, live
persisted pid or not. -/
theorem c3_amended :
    (∀ w : TmuxWorld, ∀ p, (getCanvasPaneId w).1 = Option.some p → p ≠ "" →
        (reuseExistingPane w).2 = true →
        (spawnTmux w).createCount = 0 ∧
        (spawnTmux w).reuseActions = Option.some (reuseExistingPane w).1) ∧
    (∀ w : ITermWorld, ∀ p, (getITerm2SessionId w).1 = Option.some p → p ≠ "" →
        (reuseITerm2Session w).2 = true →
        (spawnITerm2 w).createCount = 0 ∧
        (spawnITerm2 w).reuseActions = Option.some (reuseITerm2Session w).1) ∧
    (∀ w : WezTermWorld, ∀ p, (getWezTermPaneId w).1 = Option.some p → p ≠ "" →
        (reuseWezTermPane w).2 = true →
        (spawnWezTerm w).createCount = 0 ∧
        (spawnWezTerm w).reuseActions = Option.some (reuseWezTermPane w).1) ∧
    (∀ w : KittyWorld, w.remoteOk = true →
        ∀ p, (getKittyWindowId w).1 = Option.some p → p ≠ "" →
        (reuseKittyWindow w).2 = true →
        (spawnKitty w).createCount = 0 ∧
        (spawnKitty w).reuseActions = Option.some (reuseKittyWindow w).1) ∧
    (∀ w : AppleTerminalWorld, ∀ wid,
        (getAppleTerminalWindowId w).1 = Option.some wid → wid ≠ 0 →
        (reuseAppleTerminalWindow w).2 = true →
        (spawnAppleTerminal w).createCount = 0 ∧
        (spawnAppleTerminal w).reuseActions =
          Option.some (reuseAppleTerminalWindow w).1) ∧
    (∀ w : AlacrittyWorld,
        (spawnAlacritty w).createCount = 1 ∧
        (spawnAlacritty w).reuseActions = Option.none) ∧
    (∀ w : VSCodeWorld,
        (spawnVSCode w).createCount = 1 ∧
        (spawnVSCode w).reuseActions = Option.none) ∧
    (∀ w : GhosttyWorld,
        (spawnGhostty w).createCount = 1 ∧
        (spawnGhostty w).reuseActions = Option.none) := by
  refine ⟨?_, ?_, ?_, ?_, ?_, ?_, ?_, ?_⟩
  · intro w p h hp hr
    simp [spawnTmux, h, hp, hr]
  · intro w p h hp hr
    simp [spawnITerm2, h, hp, hr]
  · intro w p h hp hr
    simp [spawnWezTerm, h, hp, hr]
  · intro w hrc p h hp hr
    simp [spawnKitty, hrc, h, hp, hr]
  · intro w wid h hw hr
    simp [spawnAppleTerminal, h, hw, hr]
  · intro w
    rcases h : (getAlacrittyPid w).1 with _ | pid
    · simp [spawnAlacritty, h]
    · by_cases hp : pid = 0 <;> simp [spawnAlacritty, h, hp]
  · intro w
    rcases h : (getVSCodePid w).1 with _ | pid
    · simp [spawnVSCode, h]
    · by_cases hp : pid = 0 <;> simp [spawnVSCode, h, hp]
  · intro w
    rcases h : (getGhosttyPid w).1 with _ | pid
    · simp [spawnGhostty, h]
    · by_cases hp : pid = 0 <;> simp [spawnGhostty, h, hp]

/-- Witness for C3 (amended) at a live tmux pane and a live Apple Terminal
window, both with a working reuse transport, and at a live Alacritty pid and
a live VS Code pid. -/
theorem c3_amended_witness :
    (spawnTmux
        { command := "cmd", paneFile := Option.some "%1",
          displayMessage := fun s => Option.some s, interruptOk := true,
          injectExit := true, splitExit := true, splitOutput := "%2" }).createCount = 0 ∧
    (spawnAppleTerminal
        { command := "cmd", windowFile := Option.some "7",
          probeScriptOk := true, windowExists := fun _ => true,
          reuseScriptOk := true, reuseFound := true,
          createScriptOk := true, createOutput := "8" }).createCount = 0 ∧
    (spawnAlacritty
        { command := "cmd", pidFile := Option.some "1234",
          alive := fun _ => true, spawnPid := Option.some 4321 }).createCount = 1 ∧
    (spawnVSCode
        { command := "cmd", pidFile := Option.some "10",
          alive := fun _ => true, spawnPid := Option.some 11 }).createCount = 1 := by
  obtain ⟨ht, _, _, _, hap, ha, hv, _⟩ := c3_amended
  exact ⟨(ht _ "%1" (by decide) (by decide) (by decide)).1,
    (hap _ 7 (by decide) (by decide) (by decide)).1, (ha _).1, (hv _).1⟩

/-- C4 fails on the code: for the Alacritty backend a malformed (non-numeric)
persisted identifier makes the probe fail, yet the registry file is NOT
cleared — `getAlacrittyPid` (terminal.ts 801-820) only clears when `parseInt`
produced a number whose signal-0 check failed.  Creation still runs once. -/
theorem c4_counterexample :
    (getAlacrittyPid
        { command := "cmd", pidFile := Option.some "not-a-pid",
          alive := fun _ => false, spawnPid := Option.none }).1 = Option.none ∧
    (spawnAlacritty
        { command := "cmd", pidFile := Option.some "not-a-pid",
          alive := fun _ => false, spawnPid := Option.none }).fileAfterProbe =
      Option.some "not-a-pid" ∧
    (spawnAlacritty
        { command := "cmd", pidFile := Option.some "not-a-pid",
          alive := fun _ => false, spawnPid := Option.none }).fileAfterProbe ≠
      Option.some "" ∧
    (spawnAlacritty
        { command := "cmd", pidFile := Option.some "not-a-pid",
          alive := fun _ => false, spawnPid := Option.none }).createCount = 1 := by
  refine ⟨by decide, by decide, by decide, by decide⟩

/-- C4 amended: when the probe fails the creation primitive runs exactly
once, and the entry is cleared to the empty string whenever the probe itself
ran and failed — tmux clears on any probe failure on an existing file;
iTerm2, WezTerm and Kitty clear whenever a stored nonempty identifier fails
the probe; the identifier-parsing backends (Alacritty, VS Code, Ghostty pids
and the Apple Terminal window id) clear when the parsed identifier fails its
liveness check, but a malformed (non-numeric) value is skipped by the `isNaN`
guard without clearing, while the flow still proceeds to creation.  A handle
is only ever reused after the probe succeeded in the same call, for every
backend that has a reuse path (tmux, iTerm2, WezTerm, Kitty, Apple Terminal);
the pid backends never reuse at all. -/
theorem c4_amended :
    (∀ w : TmuxWorld, ∀ c, w.paneFile = Option.some c →
        (getCanvasPaneId w).1 = Option.none →
        (getCanvasPaneId w).2 = Option.some "" ∧ (spawnTmux w).createCount = 1) ∧
    (∀ w : ITermWorld, ∀ c, w.sessionFile = Option.some c → jsTrim c ≠ "" →
        (getITerm2SessionId w).1 = Option.none →
        (getITerm2SessionId w).2 = Option.some "" ∧
        (spawnITerm2 w).createCount = 1) ∧
    (∀ w : WezTermWorld, ∀ c, w.paneFile = Option.some c → jsTrim c ≠ "" →
        (getWezTermPaneId w).1 = Option.none →
        (getWezTermPaneId w).2 = Option.some "" ∧
        (spawnWezTerm w).createCount = 1) ∧
    (∀ w : KittyWorld, w.remoteOk = true →
        ∀ c, w.windowFile = Option.some c → jsTrim c ≠ "" →
        (getKittyWindowId w).1 = Option.none →
        (getKittyWindowId w).2 = Option.some "" ∧
        (spawnKitty w).createCount = 1) ∧
    (∀ w : AlacrittyWorld, ∀ c pid, w.pidFile = Option.some c →
        jsParseInt c = Option.some pid → w.alive pid = false →
        (getAlacrittyPid w).2 = Option.some "" ∧ (spawnAlacritty w).createCount = 1) ∧
    (∀ w : AlacrittyWorld, ∀ c, w.pidFile = Option.some c →
        jsParseInt c = Option.none →
        (getAlacrittyPid w).2 = Option.some c ∧ (spawnAlacritty w).createCount = 1) ∧
    (∀ w : VSCodeWorld, ∀ c pid, w.pidFile = Option.some c →
        jsParseInt c = Option.some pid → w.alive pid = false →
        (getVSCodePid w).2 = Option.some "" ∧ (spawnVSCode w).createCount = 1) ∧
    (∀ w : VSCodeWorld, ∀ c, w.pidFile = Option.some c →
        jsParseInt c = Option.none →
        (getVSCodePid w).2 = Option.some c ∧ (spawnVSCode w).createCount = 1) ∧
    (∀ w : GhosttyWorld, ∀ c pid, w.pidFile = Option.some c →
        jsParseInt c = Option.some pid → w.alive pid = false →
        (getGhosttyPid w).2 = Option.some "" ∧ (spawnGhostty w).createCount = 1) ∧
    (∀ w : GhosttyWorld, ∀ c, w.pidFile = Option.some c →
        jsParseInt c = Option.none →
        (getGhosttyPid w).2 = Option.some c ∧ (spawnGhostty w).createCount = 1) ∧
    (∀ w : AppleTerminalWorld, ∀ c wid, w.windowFile = Option.some c →
        jsParseInt c = Option.some wid →
        (w.probeScriptOk && w.windowExists wid) = false →
        (getAppleTerminalWindowId w).2 = Option.some "" ∧
        (spawnAppleTerminal w).createCount = 1) ∧
    (∀ w : AppleTerminalWorld, ∀ c, w.windowFile = Option.some c →
        jsParseInt c = Option.none →
        (getAppleTerminalWindowId w).2 = Option.some c ∧
        (spawnAppleTerminal w).createCount = 1) ∧
    (∀ w : TmuxWorld, (spawnTmux w).reuseActions ≠ Option.none →
        ∃ p, (getCanvasPaneId w).1 = Option.some p ∧ p ≠ "") ∧
    (∀ w : ITermWorld, (spawnITerm2 w).reuseActions ≠ Option.none →
        ∃ p, (getITerm2SessionId w).1 = Option.some p ∧ p ≠ "") ∧
    (∀ w : WezTermWorld, (spawnWezTerm w).reuseActions ≠ Option.none →
        ∃ p, (getWezTermPaneId w).1 = Option.some p ∧ p ≠ "") ∧
    (∀ w : KittyWorld, (spawnKitty w).reuseActions ≠ Option.none →
        ∃ p, (getKittyWindowId w).1 = Option.some p ∧ p ≠ "") ∧
    (∀ w : AppleTerminalWorld,
        (spawnAppleTerminal w).reuseActions ≠ Option.none →
        ∃ wid, (getAppleTerminalWindowId w).1 = Option.some wid ∧ wid ≠ 0) := by
  refine ⟨?_, ?_, ?_, ?_, ?_, ?_, ?_, ?_, ?_, ?_, ?_, ?_, ?_, ?_, ?_, ?_, ?_⟩
  · intro w c hf h
    constructor
    · rcases hd : w.displayMessage (jsTrim c) with _ | out
      · simp [getCanvasPaneId, hf, hd]
      · rcases ho : decide (out = jsTrim c) with _ | _
        · simp [getCanvasPaneId, hf, hd, of_decide_eq_false ho]
        · exfalso
          have := of_decide_eq_true ho
          simp [getCanvasPaneId, hf, hd, this] at h
    · simp [spawnTmux, h]
  · intro w c hf hne h
    refine ⟨?_, by simp [spawnITerm2, h]⟩
    by_cases hp : (w.probeScriptOk && w.sessionExists (jsTrim c)) = true
    · exfalso
      simp [getITerm2SessionId, hf, hne, hp] at h
    · simp [getITerm2SessionId, hf, hne, hp]
  · intro w c hf hne h
    refine ⟨?_, by simp [spawnWezTerm, h]⟩
    by_cases hp : w.listOk = true ∧ jsTrim c ∈ w.listedPanes
    · exfalso
      simp [getWezTermPaneId, hf, hne, hp] at h
    · simp [getWezTermPaneId, hf, hne, hp]
  · intro w hrc c hf hne h
    refine ⟨?_, by simp [spawnKitty, hrc, h]⟩
    by_cases hp : w.remoteOk = true ∧ jsTrim c ∈ w.listedWindows
    · exfalso
      simp [getKittyWindowId, hf, hne, hp] at h
    · simp [getKittyWindowId, hf, hne, hp]
  · intro w c pid hf hp ha
    have h2 : (getAlacrittyPid w).1 = Option.none ∧
        (getAlacrittyPid w).2 = Option.some "" := by
      simp [getAlacrittyPid, hf, hp, ha]
    exact ⟨h2.2, by simp [spawnAlacritty, h2.1]⟩
  · intro w c hf hp
    have h2 : (getAlacrittyPid w).1 = Option.none ∧
        (getAlacrittyPid w).2 = Option.some c := by
      simp [getAlacrittyPid, hf, hp]
    exact ⟨h2.2, by simp [spawnAlacritty, h2.1]⟩
  · intro w c pid hf hp ha
    have h2 : (getVSCodePid w).1 = Option.none ∧
        (getVSCodePid w).2 = Option.some "" := by
      simp [getVSCodePid, hf, hp, ha]
    exact ⟨h2.2, by simp [spawnVSCode, h2.1]⟩
  · intro w c hf hp
    have h2 : (getVSCodePid w).1 = Option.none ∧
        (getVSCodePid w).2 = Option.some c := by
      simp [getVSCodePid, hf, hp]
    exact ⟨h2.2, by simp [spawnVSCode, h2.1]⟩
  · intro w c pid hf hp ha
    have h2 : (getGhosttyPid w).1 = Option.none ∧
        (getGhosttyPid w).2 = Option.some "" := by
      simp [getGhosttyPid, hf, hp, ha]
    exact ⟨h2.2, by simp [spawnGhostty, h2.1]⟩
  · intro w c hf hp
    have h2 : (getGhosttyPid w).1 = Option.none ∧
        (getGhosttyPid w).2 = Option.some c := by
      simp [getGhosttyPid, hf, hp]
    exact ⟨h2.2, by simp [spawnGhostty, h2.1]⟩
  · intro w c wid hf hp hprobe
    have h2 : (getAppleTerminalWindowId w).1 = Option.none ∧
        (getAppleTerminalWindowId w).2 = Option.some "" := by
      simp [getAppleTerminalWindowId, hf, hp, hprobe]
    exact ⟨h2.2, by simp [spawnAppleTerminal, h2.1]⟩
  · intro w c hf hp
    have h2 : (getAppleTerminalWindowId w).1 = Option.none ∧
        (getAppleTerminalWindowId w).2 = Option.some c := by
      simp [getAppleTerminalWindowId, hf, hp]
    exact ⟨h2.2, by simp [spawnAppleTerminal, h2.1]⟩
  · intro w h
    rcases hp : (getCanvasPaneId w).1 with _ | p
    · exfalso
      exact h (by simp [spawnTmux, hp])
    · refine ⟨p, rfl, ?_⟩
      intro hpe
      subst hpe
      exact h (by simp [spawnTmux, hp])
  · intro w h
    rcases hp : (getITerm2SessionId w).1 with _ | p
    · exfalso
      exact h (by simp [spawnITerm2, hp])
    · refine ⟨p, rfl, ?_⟩
      intro hpe
      subst hpe
      exact h (by simp [spawnITerm2, hp])
  · intro w h
    rcases hp : (getWezTermPaneId w).1 with _ | p
    · exfalso
      exact h (by simp [spawnWezTerm, hp])
    · refine ⟨p, rfl, ?_⟩
      intro hpe
      subst hpe
      exact h (by simp [spawnWezTerm, hp])
  · intro w h
    cases hrc : w.remoteOk
    · exfalso
      exact h (by simp [spawnKitty, hrc])
    · rcases hp : (getKittyWindowId w).1 with _ | p
      · exfalso
        exact h (by simp [spawnKitty, hrc, hp])
      · refine ⟨p, rfl, ?_⟩
        intro hpe
        subst hpe
        exact h (by simp [spawnKitty, hrc, hp])
  · intro w h
    rcases hp : (getAppleTerminalWindowId w).1 with _ | wid
    · exfalso
      exact h (by simp [spawnAppleTerminal, hp])
    · refine ⟨wid, rfl, ?_⟩
      intro hpe
      subst hpe
      exact h (by simp [spawnAppleTerminal, hp])

/-- Witness for C4 (amended): a tmux probe that fails on an existing file, an
iTerm2 probe that fails on a stored nonempty id, a dead numeric Alacritty
pid, a malformed Alacritty pid, a dead numeric Ghostty pid, and a malformed
Apple Terminal window id. -/
theorem c4_amended_witness :
    ((getCanvasPaneId
        { command := "cmd", paneFile := Option.some "%1",
          displayMessage := fun _ => Option.none, interruptOk := true,
          injectExit := true, splitExit := true, splitOutput := "%2" }).2 =
      Option.some "" ∧
    (spawnTmux
        { command := "cmd", paneFile := Option.some "%1",
          displayMessage := fun _ => Option.none, interruptOk := true,
          injectExit := true, splitExit := true, splitOutput := "%2" }).createCount = 1) ∧
    ((getITerm2SessionId
        { command := "cmd", sessionFile := Option.some "S1",
          probeScriptOk := false, sessionExists := fun _ => false,
          reuseScriptOk := true, reuseFound := true,
          createScriptOk := true, createOutput := "S2" }).2 = Option.some "") ∧
    ((getAlacrittyPid
        { command := "cmd", pidFile := Option.some "42",
          alive := fun _ => false, spawnPid := Option.none }).2 = Option.some "" ∧
    (spawnAlacritty
        { command := "cmd", pidFile := Option.some "42",
          alive := fun _ => false, spawnPid := Option.none }).createCount = 1) ∧
    ((getAlacrittyPid
        { command := "cmd", pidFile := Option.some "abc",
          alive := fun _ => false, spawnPid := Option.none }).2 =
      Option.some "abc") ∧
    ((getGhosttyPid
        { command := "cmd", pidFile := Option.some "42",
          alive := fun _ => false, spawnPid := Option.none, darwin := false,
          pgrepOutput := "" }).2 = Option.some "") ∧
    ((getAppleTerminalWindowId
        { command := "cmd", windowFile := Option.some "not-a-window",
          probeScriptOk := true, windowExists := fun _ => true,
          reuseScriptOk := true, reuseFound := true,
          createScriptOk := true, createOutput := "8" }).2 =
      Option.some "not-a-window") := by
  obtain ⟨ht, hi, _, _, ha, ham, _, _, hg, _, _, hapm, _, _, _, _, _⟩ := c4_amended
  refine ⟨ht _ "%1" rfl (by decide), ?_, ha _ "42" 42 rfl (by decide) rfl, ?_, ?_, ?_⟩
  · exact (hi _ "S1" rfl (by decide) (by decide)).1
  · exact (ham _ "abc" rfl (by decide)).1
  · exact (hg _ "42" 42 rfl (by decide) rfl).1
  · exact (hapm _ "not-a-window" rfl (by decide)).1

/-! ## Reuse transport: C6 -/

/-- C6: for the backends with a reuse transport (tmux, iTerm-family, WezTerm,
Kitty), reuse of a live session sends an interrupt, waits the fixed 150 ms
settle delay, then injects the text `clear && <command>` (tmux passes the
text plus the `Enter` key; WezTerm and Kitty append the newline; iTerm2
injects it with double quotes escaped inside its AppleScript); and when the
transport fails or reports a nonzero result, the handle is cleared to the
empty string and the flow proceeds to creation. -/
theorem c6_reuse_protocol :
    (∀ w : TmuxWorld, w.interruptOk = true →
        reuseExistingPane w =
          ([.interrupt, .settle 150, .inject ("clear && " ++ w.command)],
            w.injectExit)) ∧
    (∀ w : ITermWorld, w.reuseFound = true →
        (reuseITerm2Session w).1 =
          [.interrupt, .settle 150, .inject ("clear && " ++ escapeQuotes w.command)]) ∧
    (∀ w : WezTermWorld, w.interruptOk = true →
        reuseWezTermPane w =
          ([.interrupt, .settle 150, .inject ("clear && " ++ w.command ++ "\n")],
            w.injectExit)) ∧
    (∀ w : KittyWorld, w.interruptOk = true →
        reuseKittyWindow w =
          ([.interrupt, .settle 150, .inject ("clear && " ++ w.command ++ "\n")],
            w.injectExit)) ∧
    (∀ w : TmuxWorld, ∀ p, (getCanvasPaneId w).1 = Option.some p → p ≠ "" →
        (reuseExistingPane w).2 = false →
        (spawnTmux w).fileAfterProbe = Option.some "" ∧
        (spawnTmux w).createCount = 1) ∧
    (∀ w : ITermWorld, ∀ p, (getITerm2SessionId w).1 = Option.some p → p ≠ "" →
        (reuseITerm2Session w).2 = false →
        (spawnITerm2 w).fileAfterProbe = Option.some "" ∧
        (spawnITerm2 w).createCount = 1) ∧
    (∀ w : WezTermWorld, ∀ p, (getWezTermPaneId w).1 = Option.some p → p ≠ "" →
        (reuseWezTermPane w).2 = false →
        (spawnWezTerm w).fileAfterProbe = Option.some "" ∧
        (spawnWezTerm w).createCount = 1) ∧
    (∀ w : KittyWorld, w.remoteOk = true →
        ∀ p, (getKittyWindowId w).1 = Option.some p → p ≠ "" →
        (reuseKittyWindow w).2 = false →
        (spawnKitty w).fileAfterProbe = Option.some "" ∧
        (spawnKitty w).createCount = 1) := by
  refine ⟨?_, ?_, ?_, ?_, ?_, ?_, ?_, ?_⟩
  · intro w h
    simp [reuseExistingPane, h]
  · intro w h
    simp [reuseITerm2Session, h]
  · intro w h
    simp [reuseWezTermPane, h]
  · intro w h
    simp [reuseKittyWindow, h]
  · intro w p h hp hr
    simp [spawnTmux, h, hp, hr]
  · intro w p h hp hr
    simp [spawnITerm2, h, hp, hr]
  · intro w p h hp hr
    simp [spawnWezTerm, h, hp, hr]
  · intro w hrc p h hp hr
    simp [spawnKitty, hrc, h, hp, hr]

/-- Witness for C6: a concrete tmux reuse that runs the interrupt transport,
and a concrete WezTerm reuse whose injection fails, clearing the handle and
falling through to creation. -/
theorem c6_reuse_protocol_witness :
    reuseExistingPane
        { command := "run x", paneFile := Option.some "%1",
          displayMessage := fun s => Option.some s, interruptOk := true,
          injectExit := true, splitExit := true, splitOutput := "%2" } =
      ([.interrupt, .settle 150, .inject "clear && run x"], true) ∧
    ((spawnWezTerm
        { command := "run x", paneFile := Option.some "7", listOk := true,
          listedPanes := ["7"], interruptOk := true, injectExit := false,
          splitExit := true, splitOutput := "9" }).fileAfterProbe =
      Option.some "" ∧
    (spawnWezTerm
        { command := "run x", paneFile := Option.some "7", listOk := true,
          listedPanes := ["7"], interruptOk := true, injectExit := false,
          splitExit := true, splitOutput := "9" }).createCount = 1) := by
  obtain ⟨ht, _, _, _, _, _, hw, _⟩ := c6_reuse_protocol
  refine ⟨?_, hw _ "7" (by decide) (by decide) (by decide)⟩
  have := ht
      { command := "run x", paneFile := Option.some "%1",
        displayMessage := fun s => Option.some s, interruptOk := true,
        injectExit := true, splitExit := true, splitOutput := "%2" } rfl
  simpa using this

/-! ## Session query client: C8, C9, C10 -/

/-- `opened` events do not change the client state. -/
lemma foldl_clientStep_opened (expected : String) (pre : List SockEvent)
    (h : ∀ ev ∈ pre, ev = SockEvent.opened) (st : ClientState) :
    pre.foldl (clientStep expected) st = st := by
  induction pre with
  | nil => rfl
  | cons e rest ih =>
    have he : e = SockEvent.opened := h e (by simp)
    subst he
    exact ih fun ev hm => h ev (by simp [hm])

/-- Once resolved, no later event changes the settled outcome. -/
lemma foldl_clientStep_resolved (expected : String) (events : List SockEvent)
    (o : Option (Except String String)) :
    events.foldl (clientStep expected) ⟨true, o⟩ = ⟨true, o⟩ := by
  induction events with
  | nil => rfl
  | cons e rest ih =>
    cases e <;> simpa [clientStep] using ih

/-- C8: when the first event that settles the call is a reply line, the call
resolves with the serialized `data` payload if the reply's declared type
equals the expected reply type, and with serialized `null` (never a failure)
for any other declared type. -/
theorem c8_reply_type (expected ty : String) (payload : Json)
    (pre rest : List SockEvent) (h : ∀ ev ∈ pre, ev = SockEvent.opened) :
    (sendCanvasRequest expected
        (pre ++ SockEvent.dataLine ty payload :: rest)).outcome =
      Option.some (.ok
        (if ty = expected then payload.stringify else Json.null.stringify)) := by
  unfold sendCanvasRequest
  rw [List.foldl_append, foldl_clientStep_opened expected pre h]
  by_cases hty : ty = expected <;>
    simp [clientStep, hty, foldl_clientStep_resolved]

/-- Witness for C8: a `selection` reply to a `getSelection` request resolves
to the serialized array, and a reply of another type resolves to serialized
null. -/
theorem c8_reply_type_witness :
    (sendCanvasRequest "selection"
        [SockEvent.opened,
          SockEvent.dataLine "selection" (Json.arr [Json.str "a"])]).outcome =
      Option.some (.ok "[\"a\"]") ∧
    (sendCanvasRequest "selection"
        [SockEvent.opened, SockEvent.dataLine "content" Json.null]).outcome =
      Option.some (.ok "null") := by
  constructor
  · have := c8_reply_type "selection" "selection" (Json.arr [Json.str "a"])
      [SockEvent.opened] [] (by simp)
    simpa [Json.stringify, Json.stringifyElems, escapeJson] using this
  · have := c8_reply_type "selection" "content" Json.null
      [SockEvent.opened] [] (by simp)
    simpa [Json.stringify] using this

/-- C9: the default timeout is 2000 ms; a schedule in which the timeout timer
fires before any reply settles the call with the timeout error, after exactly
one `Bun.connect` attempt; and a connection error settles the call with that
very error. -/
theorem c9_timeout_and_error (expected m : String)
    (pre rest pre2 rest2 : List SockEvent)
    (h : ∀ ev ∈ pre, ev = SockEvent.opened)
    (h2 : ∀ ev ∈ pre2, ev = SockEvent.opened) :
    defaultTimeoutMs = 2000 ∧
    (sendCanvasRequest expected
        (pre ++ SockEvent.timeoutFired :: rest)).connectAttempts = 1 ∧
    (sendCanvasRequest expected
        (pre ++ SockEvent.timeoutFired :: rest)).outcome =
      Option.some (.error timeoutMessage) ∧
    (sendCanvasRequest expected
        (pre2 ++ SockEvent.errored m :: rest2)).outcome =
      Option.some (.error m) := by
  refine ⟨rfl, rfl, ?_, ?_⟩
  · unfold sendCanvasRequest
    rw [List.foldl_append, foldl_clientStep_opened expected pre h]
    simp [clientStep, foldl_clientStep_resolved]
  · unfold sendCanvasRequest
    rw [List.foldl_append, foldl_clientStep_opened expected pre2 h2]
    simp [clientStep, foldl_clientStep_resolved]

/-- Witness for C9: a schedule with no reply, and one whose connection
errors. -/
theorem c9_timeout_and_error_witness :
    defaultTimeoutMs = 2000 ∧
    (sendCanvasRequest "selection"
        [SockEvent.opened, SockEvent.timeoutFired]).connectAttempts = 1 ∧
    (sendCanvasRequest "selection"
        [SockEvent.opened, SockEvent.timeoutFired]).outcome =
      Option.some (.error timeoutMessage) ∧
    (sendCanvasRequest "selection" [SockEvent.errored "ECONNREFUSED"]).outcome =
      Option.some (.error "ECONNREFUSED") := by
  have := c9_timeout_and_error "selection" "ECONNREFUSED"
    [SockEvent.opened] [] [] [] (by simp) (by simp)
  simpa using this

/-- C10: a connection that closes before any reply data (and before the
timeout fires) resolves the call successfully with serialized null, not with
a timeout or connection failure. -/
theorem c10_close_resolves_null (expected : String) (pre rest : List SockEvent)
    (h : ∀ ev ∈ pre, ev = SockEvent.opened) :
    (sendCanvasRequest expected (pre ++ SockEvent.closed :: rest)).outcome =
      Option.some (.ok "null") := by
  unfold sendCanvasRequest
  rw [List.foldl_append, foldl_clientStep_opened expected pre h]
  have hnull : Json.null.stringify = "null" := by simp [Json.stringify]
  simp [clientStep, foldl_clientStep_resolved, hnull]

/-- Witness for C10: the connection closes right after opening, before the
timeout; the rest of the schedule (the late timer) is ignored. -/
theorem c10_close_resolves_null_witness :
    (sendCanvasRequest "content"
        [SockEvent.opened, SockEvent.closed, SockEvent.timeoutFired]).outcome =
      Option.some (.ok "null") := by
  have := c10_close_resolves_null "content" [SockEvent.opened]
    [SockEvent.timeoutFired] (by simp)
  simpa using this

end Canvas
